import Mathlib

/-!
Shallow embedding of the inpinity-rpc-proxy Cloudflare worker (src/src/index.ts).

Effects are made explicit: every network fetch or KV read that the code awaits
is passed in as an outcome value, and mutable state (the KV value under the
key claimed, the blockhash cache cell) is threaded through explicitly.
-/

namespace InpinityRpcProxy

/-- Worker environment bindings (interface Env, src/src/index.ts lines 5-22).
Optional string bindings are `Option String`; the KV namespace itself is
modelled by threading the stored value explicitly. -/
structure Env where
  UPSTREAM_RPC : String
  BACKUP_RPC : Option String
  REMOTE_CLAIMS_URL : Option String
  CREATOR_PUBKEY : Option String
  MAX_INDEX : Option String
deriving DecidableEq, Repr

/-- An HTTP response as the worker sees it: status plus body text. -/
structure Resp where
  status : Nat
  body : String
deriving DecidableEq, Repr

/-- Outcome of one `fetch` to an upstream endpoint: an HTTP response, or a
transport failure (the promise rejects). -/
inductive FetchOutcome
  | ok (r : Resp)
  | fail
deriving DecidableEq, Repr

/-- Source `isRetryable` (line 64): status 403, 429, or in 500..599. -/
def isRetryable (s : Nat) : Bool :=
  s == 403 || s == 429 || (500 ≤ s && s ≤ 599)

/-- Result of `rpcForward`: the response handed back, together with how many
attempts were made against the primary and the backup endpoint. -/
structure FwdResult where
  resp : Resp
  primaryAttempts : Nat
  backupAttempts : Nat
deriving DecidableEq, Repr

/-- The backup half of `rpcForward` (lines 80-87): if `BACKUP_RPC` is set, one
attempt against it, its response returned as is, a transport failure giving the
synthesized 599; with no backup configured, the synthesized 599 directly. -/
def rpcForwardBackup (env : Env) (backup : FetchOutcome) : FwdResult :=
  match env.BACKUP_RPC with
  | some _ =>
    match backup with
    | .ok rb => ⟨rb, 1, 1⟩
    | .fail => ⟨⟨599, "UPSTREAM+BACKUP error"⟩, 1, 1⟩
  | none => ⟨⟨599, "UPSTREAM error"⟩, 1, 0⟩

/-- Source `rpcForward` (lines 74-88): one attempt on the primary; a non-retryable
status is returned unmodified; a retryable status or a transport failure falls
through to the backup half. -/
def rpcForward (env : Env) (primary backup : FetchOutcome) : FwdResult :=
  match primary with
  | .ok r => if isRetryable r.status then rpcForwardBackup env backup else ⟨r, 1, 0⟩
  | .fail => rpcForwardBackup env backup

/-! ## Blockhash mini cache (lines 91-113) -/

/-- The process-wide cache cell `_lastBlockhash` / `_lastBlockTs`. -/
structure BhCache where
  lastBlockhash : String
  lastBlockTs : Int
deriving DecidableEq, Repr

/-- Source `BLOCKHASH_TTL_MS` (line 93): 10000 milliseconds. -/
def BLOCKHASH_TTL_MS : Int := 10000

/-- What the upstream round trip of `getLatestBlockhash` yields: the status of
the forwarded response and the extracted blockhash field
`j?.result?.value?.blockhash || j?.result?.blockhash`, the empty string
standing for an absent or falsy field. -/
structure BhRpc where
  status : Nat
  bh : String
deriving DecidableEq, Repr

/-- Property `Response.ok` of the fetch API: status in 200..299. -/
def respOk (s : Nat) : Bool := 200 ≤ s && s ≤ 299

/-- Result of one `getLatestBlockhash` call: the returned value or the thrown
error message, the cache cell afterwards, and whether an upstream fetch
happened. -/
structure BhResult where
  out : Except String String
  cache : BhCache
  fetched : Bool
deriving Repr

/-- Source `getLatestBlockhash` (lines 95-113): serve from the cache while the cell is
nonempty and younger than the TTL; otherwise fetch through the gateway, throw
on a non-ok status or a missing blockhash, and on success overwrite the cell. -/
def getLatestBlockhash (c : BhCache) (now : Int) (u : BhRpc) : BhResult :=
  if c.lastBlockhash ≠ "" ∧ now - c.lastBlockTs < BLOCKHASH_TTL_MS then
    ⟨.ok c.lastBlockhash, c, false⟩
  else if ¬ respOk u.status then ⟨.error "RPC error status", c, true⟩
  else if u.bh = "" then ⟨.error "No blockhash", c, true⟩
  else ⟨.ok u.bh, ⟨u.bh, now⟩, true⟩

/-! ## Claims store (lines 116-149) -/

/-- The shapes of a parsed JSON document that `getClaims` distinguishes: a
bare array of numbers, an object whose `claimed` field is an array of numbers,
or anything else. -/
inductive Js
  | jarr (l : List Int)
  | jobjClaimed (l : List Int)
  | jother
deriving DecidableEq, Repr

/-- The KV value stored under the key `claimed`: absent, present but not valid
JSON (JSON.parse throws), or present and parsed. -/
inductive KvVal
  | missing
  | unparsable
  | val (j : Js)
deriving DecidableEq, Repr

/-- Outcome of the fetch against `REMOTE_CLAIMS_URL`: transport failure, or an
HTTP response with its `ok` flag and its body's parse (`none` when `r.json()`
throws). -/
inductive RemoteOutcome
  | transportFail
  | httpResp (rok : Bool) (body : Option Js)
deriving DecidableEq, Repr

/-- The KV half of `getClaims` (lines 129-136): missing value or parse failure
or an unexpected shape all give the empty list. -/
def readKvList : KvVal → List Int
  | .missing => []
  | .unparsable => []
  | .val (.jarr l) => l
  | .val (.jobjClaimed l) => l
  | .val .jother => []

/-- Result of `getClaims`: the list produced, and whether the KV store was
read (the remote branch returns before touching KV when it yields a list). -/
structure GetClaimsOut where
  claimed : List Int
  kvRead : Bool
deriving DecidableEq, Repr

/-- Source `getClaims` (lines 116-137): when `REMOTE_CLAIMS_URL` is set, try the
remote endpoint first and return its array (bare, or under `claimed`) without
reading KV; every remote failure mode falls through to the KV value. -/
def getClaims (env : Env) (remote : RemoteOutcome) (kv : KvVal) : GetClaimsOut :=
  if env.REMOTE_CLAIMS_URL.isSome then
    match remote with
    | .transportFail => ⟨readKvList kv, true⟩
    | .httpResp rok body =>
      if rok then
        match body with
        | some (.jarr l) => ⟨l, false⟩
        | some (.jobjClaimed l) => ⟨l, false⟩
        | some .jother => ⟨readKvList kv, true⟩
        | none => ⟨readKvList kv, true⟩
      else ⟨readKvList kv, true⟩
  else ⟨readKvList kv, true⟩

/-- Source `saveClaims` (lines 139-141): `CLAIMS.put('claimed', JSON.stringify(arr))`,
so the stored value parses back as the bare array. -/
def saveClaims (arr : List Int) : KvVal := KvVal.val (Js.jarr arr)

/-- The two return values of `addClaim`. -/
inductive AddResult
  | created
  | existing
deriving DecidableEq, Repr

/-- Result of `addClaim`: its return value and the KV value afterwards. -/
structure AddOut where
  result : AddResult
  kv : KvVal
deriving DecidableEq, Repr

/-- Source `addClaim` (lines 143-149): read the list, answer `exists` when the index
is already in it, otherwise append and save. -/
def addClaim (env : Env) (remote : RemoteOutcome) (kv : KvVal) (idx : Int) : AddOut :=
  let arr := (getClaims env remote kv).claimed
  if idx ∈ arr then ⟨.existing, kv⟩
  else ⟨.created, saveClaims (arr ++ [idx])⟩

/-! ## The /claims HTTP handlers (lines 306-327) -/

/-- The distinct response bodies of the /claims handlers. -/
inductive RespBody
  | okTrue
  | alreadyClaimed
  | invalidIndex
  | claimedList (l : List Int)
deriving DecidableEq, Repr

/-- An HTTP response of the /claims handlers. -/
structure HttpOut where
  status : Nat
  body : RespBody
deriving DecidableEq, Repr

/-- The `index` field of a POST /claims body after `readJsonSafe`: a JS number
that is an integer, a JS number that is not an integer, or a missing or
non-number value. -/
inductive PostIndex
  | intVal (n : Int)
  | nonIntNumber
  | notNumber
deriving DecidableEq, Repr

/-- Result of the POST /claims handler: the HTTP response, the KV value
afterwards, and whether `addClaim` was invoked. -/
structure PostOut where
  resp : HttpOut
  kv : KvVal
  addClaimInvoked : Bool
deriving DecidableEq, Repr

/-- The POST /claims handler (lines 315-327): reject with 400 unless `index`
is an integer number with `index ≥ 0`; otherwise call `addClaim` and map
`exists` to 409 and `created` to 200. -/
def postClaims (env : Env) (remote : RemoteOutcome) (kv : KvVal) (body : PostIndex) : PostOut :=
  match body with
  | .intVal n =>
    if n < 0 then ⟨⟨400, .invalidIndex⟩, kv, false⟩
    else
      let a := addClaim env remote kv n
      if a.result = .existing then ⟨⟨409, .alreadyClaimed⟩, a.kv, true⟩
      else ⟨⟨200, .okTrue⟩, a.kv, true⟩
  | .nonIntNumber => ⟨⟨400, .invalidIndex⟩, kv, false⟩
  | .notNumber => ⟨⟨400, .invalidIndex⟩, kv, false⟩

/-- The GET /claims handler (lines 306-314): always status 200, body the list
that `getClaims` produced, verbatim. -/
def getClaimsHandler (env : Env) (remote : RemoteOutcome) (kv : KvVal) : HttpOut :=
  ⟨200, .claimedList (getClaims env remote kv).claimed⟩

/-! ## Interleaved executions of addClaim

A POST /claims request awaits the KV read inside `getClaims` and later the KV
write inside `saveClaims`; two concurrent requests may interleave at those
await points. A session is the phase one `addClaim` execution is in, and a
schedule interleaves the steps of two sessions over the shared KV value. -/

/-- Phase of one in-flight `addClaim` execution. -/
inductive Phase
  | start
  | readDone (arr : List Int)
  | finished (r : AddResult)
deriving DecidableEq, Repr

/-- One step of an `addClaim idx` execution over the shared KV value: from
`start`, perform the `getClaims` read; from `readDone`, decide and, on the
created branch, perform the `saveClaims` write. -/
def stepAddClaim (env : Env) (remote : RemoteOutcome) (i : Int) :
    Phase → KvVal → Phase × KvVal
  | .start, kv => (.readDone (getClaims env remote kv).claimed, kv)
  | .readDone arr, kv =>
    if i ∈ arr then (.finished .existing, kv)
    else (.finished .created, saveClaims (arr ++ [i]))
  | .finished r, kv => (.finished r, kv)

/-- Run two concurrent `addClaim i` sessions under a schedule: `true` steps the
first session, `false` the second, both over the shared KV value. -/
def runSched (env : Env) (remote : RemoteOutcome) (i : Int) :
    List Bool → Phase × Phase × KvVal → Phase × Phase × KvVal
  | [], st => st
  | b :: rest, (p1, p2, kv) =>
    if b then
      let s := stepAddClaim env remote i p1 kv
      runSched env remote i rest (s.1, p2, s.2)
    else
      let s := stepAddClaim env remote i p2 kv
      runSched env remote i rest (p1, s.1, s.2)

/-! ## The /relay creator gate (lines 236-279) -/

/-- JS `String.prototype.trim`: strip leading and trailing whitespace. -/
def jsTrim (s : String) : String :=
  ⟨((s.data.dropWhile Char.isWhitespace).reverse.dropWhile Char.isWhitespace).reverse⟩

/-- The fields of a POST /relay body that the gate inspects; a missing `tx` or
`signer` is the empty-option, and JS falsiness of the empty string is kept. -/
structure RelayReq where
  tx : String
  requireCreator : Bool
  signer : Option String
deriving DecidableEq, Repr

/-- How far a /relay request gets before the sendRawTransaction submit:
rejected early with a status and message, or handed to the submit path. -/
inductive RelayOutcome
  | reject (status : Nat) (msg : String)
  | submitted
deriving DecidableEq, Repr

/-- The /relay handler up to the submit call (lines 250-260): missing `tx` is
400; with `requireCreator`, a blank configured creator is 412 and a blank or
unequal trimmed signer is 403; only otherwise is `sendRawTransaction`
forwarded. -/
def relayGate (env : Env) (body : RelayReq) : RelayOutcome :=
  if body.tx = "" then .reject 400 "Missing tx"
  else if body.requireCreator then
    let need := jsTrim (env.CREATOR_PUBKEY.getD "")
    let got := jsTrim (body.signer.getD "")
    if need = "" then .reject 412 "CREATOR_PUBKEY not configured"
    else if got = "" ∨ got ≠ need then .reject 403 "Forbidden: signer is not creator"
    else .submitted
  else .submitted

/-! ## Helper definitions for the theorems -/

/-- Decimal parse of a character list, for the digit-string case of the JS
`Number` conversion. -/
def parseNat (cs : List Char) : Option Nat :=
  if cs ≠ [] ∧ cs.all Char.isDigit then
    some (cs.foldl (fun n c => n * 10 + (c.toNat - 48)) 0)
  else none

/-- Expression `Number(env.MAX_INDEX || '9999')` as used by the stats handlers,
for digit strings; a blank binding falls back to the literal 9999. -/
def maxIndexOf (env : Env) : Int :=
  ((parseNat (env.MAX_INDEX.getD "9999").data).getD 9999 : Nat)

/-- Run a sequence of POST /claims bodies over the KV value. -/
def runPosts (env : Env) (remote : RemoteOutcome) : List PostIndex → KvVal → KvVal
  | [], kv => kv
  | b :: rest, kv => runPosts env remote rest (postClaims env remote kv b).kv

/-- An environment with no remote claims URL, no backup, no creator key. -/
def envNoRemote : Env :=
  ⟨"https://api.mainnet-beta.solana.com", none, none, none, none⟩

/-- An environment with a remote claims URL configured. -/
def envRemote : Env :=
  ⟨"https://api.mainnet-beta.solana.com", none, some "https://claims.example/claims.json", none, none⟩

/-- An environment with a backup RPC endpoint configured. -/
def envBackup : Env :=
  ⟨"https://api.mainnet-beta.solana.com", some "https://solana.publicnode.com", none, none, none⟩

/-- An environment with `MAX_INDEX` set to 9999. -/
def envMax : Env :=
  ⟨"https://api.mainnet-beta.solana.com", none, none, none, some "9999"⟩

/-- An environment with a creator pubkey configured. -/
def envCreator : Env :=
  ⟨"https://api.mainnet-beta.solana.com", none, none, some "GEFoCreatorKey", none⟩

/-- A remote endpoint answering 200 with the empty JSON array. -/
def remoteEmptyOk : RemoteOutcome := .httpResp true (some (.jarr []))

/-! ## Helper lemmas -/

/-- With no remote claims URL, `getClaims` is exactly the KV read. -/
theorem getClaims_no_remote (env : Env) (remote : RemoteOutcome) (kv : KvVal)
    (hn : env.REMOTE_CLAIMS_URL = none) :
    getClaims env remote kv = ⟨readKvList kv, true⟩ := by
  simp [getClaims, hn]

/-- Reading back a saved claims array yields that array. -/
theorem readKvList_saveClaims (l : List Int) : readKvList (saveClaims l) = l := rfl

/-- With no remote claims URL, `addClaim` never removes an index from the
stored list. -/
theorem mem_addClaim_preserved (env : Env) (remote : RemoteOutcome) (kv : KvVal)
    (n i : Int) (hn : env.REMOTE_CLAIMS_URL = none) (h : i ∈ readKvList kv) :
    i ∈ readKvList (addClaim env remote kv n).kv := by
  have hg : (getClaims env remote kv).claimed = readKvList kv := by
    rw [getClaims_no_remote env remote kv hn]
  by_cases hm : n ∈ readKvList kv
  · simpa [addClaim, hg, hm] using h
  · simp only [addClaim, hg, hm, if_false, readKvList_saveClaims]
    exact List.mem_append_left _ h

/-- With no remote claims URL, a POST /claims request never removes an index
from the stored list. -/
theorem mem_post_preserved (env : Env) (remote : RemoteOutcome) (kv : KvVal)
    (b : PostIndex) (i : Int) (hn : env.REMOTE_CLAIMS_URL = none)
    (h : i ∈ readKvList kv) : i ∈ readKvList (postClaims env remote kv b).kv := by
  cases b with
  | intVal n =>
    by_cases hneg : n < 0
    · simpa [postClaims, hneg]
    · have hk : (postClaims env remote kv (.intVal n)).kv
          = (addClaim env remote kv n).kv := by
        simp only [postClaims, hneg, if_false]
        by_cases he : (addClaim env remote kv n).result = .existing <;> simp [he]
      rw [hk]
      exact mem_addClaim_preserved env remote kv n i hn h
  | nonIntNumber => simpa [postClaims]
  | notNumber => simpa [postClaims]

/-- With no remote claims URL, a whole sequence of POST /claims requests never
removes an index from the stored list. -/
theorem mem_runPosts_preserved (env : Env) (remote : RemoteOutcome)
    (ops : List PostIndex) :
    ∀ (kv : KvVal) (i : Int), env.REMOTE_CLAIMS_URL = none →
      i ∈ readKvList kv → i ∈ readKvList (runPosts env remote ops kv) := by
  induction ops with
  | nil => intro kv i _ h; simpa [runPosts]
  | cons b rest ih =>
    intro kv i hn h
    simp only [runPosts]
    exact ih _ _ hn (mem_post_preserved env remote kv b i hn h)

/-- With no remote claims URL, a POST /claims answered 200 leaves the stored
list with the index appended. -/
theorem post_granted_inv (env : Env) (remote : RemoteOutcome) (kv : KvVal)
    (i : Int) (hn : env.REMOTE_CLAIMS_URL = none)
    (h200 : (postClaims env remote kv (.intVal i)).resp.status = 200) :
    (postClaims env remote kv (.intVal i)).kv = saveClaims (readKvList kv ++ [i]) := by
  by_cases hneg : i < 0
  · simp [postClaims, hneg] at h200
  · by_cases hm : i ∈ readKvList kv
    · have : (addClaim env remote kv i).result = .existing := by
        simp [addClaim, getClaims_no_remote env remote kv hn, hm]
      simp [postClaims, hneg, this] at h200
    · have hres : (addClaim env remote kv i).result = .created ∧
          (addClaim env remote kv i).kv = saveClaims (readKvList kv ++ [i]) := by
        constructor <;> simp [addClaim, getClaims_no_remote env remote kv hn, hm]
      simp [postClaims, hneg, hres.1, hres.2]

/-- With no remote claims URL, a POST /claims for an index already in the
stored list is answered 409. -/
theorem post_mem_denied (env : Env) (remote : RemoteOutcome) (kv : KvVal)
    (i : Int) (hn : env.REMOTE_CLAIMS_URL = none) (hge : ¬ i < 0)
    (hm : i ∈ readKvList kv) :
    (postClaims env remote kv (.intVal i)).resp.status = 409 := by
  have : (addClaim env remote kv i).result = .existing := by
    simp [addClaim, getClaims_no_remote env remote kv hn, hm]
  simp [postClaims, hge, this]

/-! ## Claim theorems -/

/-- Claim C1: the spec requires that among N concurrent POST /claims requests
for one index exactly one is Granted. The code evaluated at the failing
interleaving: two concurrent `addClaim 5` executions over an empty store, both
performing their `getClaims` read before either performs its `saveClaims`
write, both finish with `created` — two Granted responses. -/
theorem addClaim_race_two_grants :
    runSched envNoRemote .transportFail 5 [true, false, true, false]
      (.start, .start, .missing)
      = (.finished .created, .finished .created, saveClaims [5]) := by
  rfl

/-- Claim C3: `rpcForward` attempts the primary exactly once; a non-retryable
primary status is returned unmodified with the backup never contacted; a
retryable primary status or a primary transport failure leads to exactly one
backup attempt when a backup is configured, whose response is returned. -/
theorem rpcForward_primary_once_backup_once (env : Env) (r rb : Resp)
    (primary backup : FetchOutcome) :
    (rpcForward env primary backup).primaryAttempts = 1
    ∧ (isRetryable r.status = false →
        rpcForward env (.ok r) backup = ⟨r, 1, 0⟩)
    ∧ (env.BACKUP_RPC.isSome →
        (isRetryable r.status = true →
          (rpcForward env (.ok r) backup).backupAttempts = 1)
        ∧ (rpcForward env .fail backup).backupAttempts = 1
        ∧ rpcForward env .fail (.ok rb) = ⟨rb, 1, 1⟩) := by
  have hb : ∀ b : FetchOutcome, (rpcForwardBackup env b).primaryAttempts = 1 := by
    intro b
    cases hB : env.BACKUP_RPC <;> cases b <;> simp [rpcForwardBackup, hB]
  refine ⟨?_, ?_, ?_⟩
  · cases primary with
    | ok r' =>
      by_cases h : isRetryable r'.status
      · simpa [rpcForward, h] using hb backup
      · simp [rpcForward, h]
    | fail => simpa [rpcForward] using hb backup
  · intro h; simp [rpcForward, h]
  · intro hS
    obtain ⟨u, hu⟩ := Option.isSome_iff_exists.mp hS
    refine ⟨fun h => ?_, ?_, ?_⟩
    · cases backup <;> simp [rpcForward, h, rpcForwardBackup, hu]
    · cases backup <;> simp [rpcForward, rpcForwardBackup, hu]
    · simp [rpcForward, rpcForwardBackup, hu]

/-- Claim C3 witness: a 404 primary is returned unmodified with no backup
attempt, and a primary transport failure leads to one backup attempt whose
response is returned. -/
theorem rpcForward_primary_once_backup_once_witness :
    rpcForward envBackup (.ok ⟨404, "not found"⟩) (.ok ⟨200, "pong"⟩)
      = ⟨⟨404, "not found"⟩, 1, 0⟩
    ∧ rpcForward envBackup .fail (.ok ⟨200, "pong"⟩) = ⟨⟨200, "pong"⟩, 1, 1⟩ := by
  have h := rpcForward_primary_once_backup_once envBackup ⟨404, "not found"⟩
    ⟨200, "pong"⟩ (.ok ⟨404, "not found"⟩) (.ok ⟨200, "pong"⟩)
  exact ⟨h.2.1 (by decide), (h.2.2 (by decide)).2.2⟩

/-- Claim C6 counterexample: with the primary failing retryably (500) and the
backup answering an HTTP error status (502), `rpcForward` returns the backup's
response verbatim — upstream status inside the normal range and the upstream
body — instead of a synthesized leak-free out-of-range error. -/
theorem rpcForward_backup_error_passthrough :
    rpcForward envBackup (.ok ⟨500, "primary body"⟩) (.ok ⟨502, "backup body"⟩)
      = ⟨⟨502, "backup body"⟩, 1, 1⟩
    ∧ (502 : Nat) ≠ 599 := by
  exact ⟨rfl, by decide⟩

/-- Claim C6 amended: only when the primary attempt fails (transport failure
or retryable status) and the backup attempt is itself a transport failure — or
no backup is configured — does `rpcForward` synthesize a status-599 response
with a fixed body carrying no upstream data; a backup HTTP response of any
status is returned verbatim. -/
theorem rpcForward_both_unavailable (env : Env) (primary b : FetchOutcome)
    (hp : primary = .fail ∨ ∃ r, primary = .ok r ∧ isRetryable r.status = true) :
    (env.BACKUP_RPC.isSome →
      rpcForward env primary .fail = ⟨⟨599, "UPSTREAM+BACKUP error"⟩, 1, 1⟩)
    ∧ (env.BACKUP_RPC = none →
      rpcForward env primary b = ⟨⟨599, "UPSTREAM error"⟩, 1, 0⟩) := by
  rcases hp with hp | ⟨r, hp, hr⟩ <;> subst hp
  · constructor
    · intro hS
      obtain ⟨u, hu⟩ := Option.isSome_iff_exists.mp hS
      simp [rpcForward, rpcForwardBackup, hu]
    · intro hN; cases b <;> simp [rpcForward, rpcForwardBackup, hN]
  · constructor
    · intro hS
      obtain ⟨u, hu⟩ := Option.isSome_iff_exists.mp hS
      simp [rpcForward, rpcForwardBackup, hu, hr]
    · intro hN; cases b <;> simp [rpcForward, rpcForwardBackup, hN, hr]

/-- Claim C6 amended witness: primary transport failure with backup transport
failure gives the synthesized 599 with its fixed body. -/
theorem rpcForward_both_unavailable_witness :
    rpcForward envBackup .fail .fail = ⟨⟨599, "UPSTREAM+BACKUP error"⟩, 1, 1⟩ := by
  exact (rpcForward_both_unavailable envBackup .fail .fail (Or.inl rfl)).1 (by decide)

/-- Claim C2 counterexample: with `REMOTE_CLAIMS_URL` configured and the
remote endpoint answering 200 with the empty array, POST /claims for index 5
returns 200 Granted, and an immediately following non-overlapping POST /claims
for index 5 — run on the very store the first call wrote — returns 200 Granted
again: a second Granted for the same index. -/
theorem postClaims_remote_double_grant :
    (postClaims envRemote remoteEmptyOk .missing (.intVal 5)).resp.status = 200
    ∧ (postClaims envRemote remoteEmptyOk
        (postClaims envRemote remoteEmptyOk .missing (.intVal 5)).kv
        (.intVal 5)).resp.status = 200 := by
  exact ⟨rfl, rfl⟩

/-- Claim C2 amended: when `getClaims` resolves against the local KV store
(no `REMOTE_CLAIMS_URL` configured), once a POST /claims for index i has
completed and returned Granted (200), every subsequent non-overlapping
POST /claims for i — across any sequence of intervening requests — returns
Denied (409). -/
theorem postClaims_no_second_grant (env : Env) (remote remote2 : RemoteOutcome)
    (kv : KvVal) (i : Int) (ops : List PostIndex)
    (hn : env.REMOTE_CLAIMS_URL = none)
    (h200 : (postClaims env remote kv (.intVal i)).resp.status = 200) :
    (postClaims env remote2
      (runPosts env remote ops (postClaims env remote kv (.intVal i)).kv)
      (.intVal i)).resp.status = 409 := by
  by_cases hneg : i < 0
  · simp [postClaims, hneg] at h200
  · have hkv := post_granted_inv env remote kv i hn h200
    have hmem : i ∈ readKvList (postClaims env remote kv (.intVal i)).kv := by
      rw [hkv, readKvList_saveClaims]
      exact List.mem_append_right _ (List.mem_singleton_self i)
    have hmem2 := mem_runPosts_preserved env remote ops
      (postClaims env remote kv (.intVal i)).kv i hn hmem
    exact post_mem_denied env remote2 _ i hn hneg hmem2

/-- Claim C2 amended witness: with no remote configured, after a Granted for
index 5 and an intervening claim for index 7, a retry for index 5 is Denied. -/
theorem postClaims_no_second_grant_witness :
    (postClaims envNoRemote .transportFail
      (runPosts envNoRemote .transportFail [.intVal 7]
        (postClaims envNoRemote .transportFail .missing (.intVal 5)).kv)
      (.intVal 5)).resp.status = 409 := by
  exact postClaims_no_second_grant envNoRemote .transportFail .transportFail
    .missing 5 [.intVal 7] rfl rfl

/-- Claim C4 counterexample: with the stored KV value the array [2, 1, 1],
GET /claims answers 200 with exactly that list, which is neither ascending nor
duplicate-free. -/
theorem getClaims_handler_unsorted_dup :
    getClaimsHandler envNoRemote .transportFail (.val (.jarr [2, 1, 1]))
      = ⟨200, .claimedList [2, 1, 1]⟩
    ∧ ¬ List.Chain' (· < ·) ([2, 1, 1] : List Int) := by
  refine ⟨rfl, fun hc => ?_⟩
  rw [List.chain'_cons] at hc
  exact absurd hc.1 (by norm_num)

/-- Claim C4 amended: GET /claims returns the stored list of claimed indices
verbatim — no sorting and no deduplication is performed; sequential `addClaim`
never introduces a duplicate into the stored list, but the order is insertion
order, not necessarily ascending. -/
theorem getClaims_handler_verbatim_nodup (env : Env) (remote : RemoteOutcome)
    (l : List Int) (i : Int) (hn : env.REMOTE_CLAIMS_URL = none) :
    getClaimsHandler env remote (.val (.jarr l)) = ⟨200, .claimedList l⟩
    ∧ (l.Nodup → (readKvList (addClaim env remote (.val (.jarr l)) i).kv).Nodup) := by
  have hg : ∀ kv, (getClaims env remote kv).claimed = readKvList kv := by
    intro kv; rw [getClaims_no_remote env remote kv hn]
  have hg' : (getClaims env remote (KvVal.val (Js.jarr l))).claimed = l := by
    rw [getClaims_no_remote env remote _ hn]
    rfl
  constructor
  · simp [getClaimsHandler, hg, readKvList]
  · intro hnd
    by_cases hm : i ∈ l
    · simpa [addClaim, hg', hm, readKvList] using hnd
    · simp only [addClaim, hg', hm, if_false, readKvList_saveClaims]
      simpa [List.nodup_append, List.disjoint_singleton] using ⟨hnd, hm⟩

/-- Claim C4 amended witness: a stored array [3] is returned verbatim, and one
more `addClaim 3` leaves the stored list duplicate-free. -/
theorem getClaims_handler_verbatim_nodup_witness :
    getClaimsHandler envNoRemote .transportFail (.val (.jarr [3]))
      = ⟨200, .claimedList [3]⟩
    ∧ (readKvList (addClaim envNoRemote .transportFail (.val (.jarr [3])) 3).kv).Nodup := by
  have h := getClaims_handler_verbatim_nodup envNoRemote .transportFail [3] 3 rfl
  exact ⟨h.1, h.2 (by decide)⟩

/-- Claim C5 counterexample: with `MAX_INDEX` configured as 9999, a POST
/claims for the integer index 10000 — strictly greater than the maximum — is
not rejected with 400: `addClaim` is invoked and the request is Granted 200. -/
theorem postClaims_above_max_granted :
    maxIndexOf envMax = 9999
    ∧ (9999 : Int) < 10000
    ∧ (postClaims envMax .transportFail .missing (.intVal 10000)).resp
        = ⟨200, .okTrue⟩
    ∧ (postClaims envMax .transportFail .missing (.intVal 10000)).addClaimInvoked
        = true := by
  refine ⟨by decide, by decide, rfl, rfl⟩

/-- Claim C5 amended: a POST /claims index that is missing, not a number, not
an integer, or negative is rejected with 400 before `addClaim` runs and leaves
the store untouched; the configured `MAX_INDEX` bound is not enforced, so
every non-negative integer index — also one above `MAX_INDEX` — reaches
`addClaim`. -/
theorem postClaims_validation (env : Env) (remote : RemoteOutcome) (kv : KvVal)
    (n : Int) :
    postClaims env remote kv .notNumber = ⟨⟨400, .invalidIndex⟩, kv, false⟩
    ∧ postClaims env remote kv .nonIntNumber = ⟨⟨400, .invalidIndex⟩, kv, false⟩
    ∧ (n < 0 →
        postClaims env remote kv (.intVal n) = ⟨⟨400, .invalidIndex⟩, kv, false⟩)
    ∧ (0 ≤ n →
        (postClaims env remote kv (.intVal n)).addClaimInvoked = true) := by
  refine ⟨rfl, rfl, fun h => by simp [postClaims, h], fun h => ?_⟩
  have hneg : ¬ n < 0 := not_lt.mpr h
  simp only [postClaims, hneg, if_false]
  by_cases he : (addClaim env remote kv n).result = .existing <;> simp [he]

/-- Claim C5 amended witness: index -1 is rejected 400 without touching the
store, and index 3 reaches `addClaim`. -/
theorem postClaims_validation_witness :
    postClaims envNoRemote .transportFail .missing (.intVal (-1))
      = ⟨⟨400, .invalidIndex⟩, .missing, false⟩
    ∧ (postClaims envNoRemote .transportFail .missing (.intVal 3)).addClaimInvoked
      = true := by
  exact ⟨(postClaims_validation envNoRemote .transportFail .missing (-1)).2.2.1
      (by decide),
    (postClaims_validation envNoRemote .transportFail .missing 3).2.2.2
      (by decide)⟩

/-- Claim C7: a nonempty cache cell younger than the 10-second TTL is served
without an upstream call; otherwise, a successful fetch overwrites the single
cell with the fresh value and returns it; hence a fresh fetch followed by a
second call within the TTL window returns the identical value with exactly one
upstream fetch between them. -/
theorem getLatestBlockhash_cache_spec (c : BhCache) (t0 t1 : Int) (u u1 : BhRpc) :
    (c.lastBlockhash ≠ "" → t0 - c.lastBlockTs < BLOCKHASH_TTL_MS →
      getLatestBlockhash c t0 u = ⟨.ok c.lastBlockhash, c, false⟩)
    ∧ (¬ (c.lastBlockhash ≠ "" ∧ t0 - c.lastBlockTs < BLOCKHASH_TTL_MS) →
        respOk u.status = true → u.bh ≠ "" →
        getLatestBlockhash c t0 u = ⟨.ok u.bh, ⟨u.bh, t0⟩, true⟩)
    ∧ (c.lastBlockhash = "" → respOk u.status = true → u.bh ≠ "" →
        t1 - t0 < BLOCKHASH_TTL_MS →
        (getLatestBlockhash c t0 u).fetched = true
        ∧ getLatestBlockhash (getLatestBlockhash c t0 u).cache t1 u1
            = ⟨.ok u.bh, (getLatestBlockhash c t0 u).cache, false⟩) := by
  refine ⟨fun h1 h2 => ?_, fun hmiss hok hbh => ?_, fun hempty hok hbh hwin => ?_⟩
  · simp [getLatestBlockhash, h1, h2]
  · simp [getLatestBlockhash, hmiss, hok, hbh]
  · have hmiss : ¬ (c.lastBlockhash ≠ "" ∧ t0 - c.lastBlockTs < BLOCKHASH_TTL_MS) := by
      simp [hempty]
    have h1 : getLatestBlockhash c t0 u = ⟨.ok u.bh, ⟨u.bh, t0⟩, true⟩ := by
      simp [getLatestBlockhash, hmiss, hok, hbh]
    refine ⟨by rw [h1], ?_⟩
    rw [h1]
    simp [getLatestBlockhash, hbh, hwin]

/-- Claim C7 witness: a 5-second-old cached value is served without a fetch,
and from an empty cell a successful fetch returns and caches the fresh value,
after which a call 2 seconds later is served from the cell. -/
theorem getLatestBlockhash_cache_spec_witness :
    getLatestBlockhash ⟨"cachedHash", 95000⟩ 100000 ⟨599, ""⟩
      = ⟨.ok "cachedHash", ⟨"cachedHash", 95000⟩, false⟩
    ∧ (getLatestBlockhash ⟨"", 0⟩ 100000 ⟨200, "freshHash"⟩).fetched = true
    ∧ getLatestBlockhash (getLatestBlockhash ⟨"", 0⟩ 100000 ⟨200, "freshHash"⟩).cache
        102000 ⟨599, ""⟩
      = ⟨.ok "freshHash", (getLatestBlockhash ⟨"", 0⟩ 100000 ⟨200, "freshHash"⟩).cache, false⟩ := by
  refine ⟨(getLatestBlockhash_cache_spec ⟨"cachedHash", 95000⟩ 100000 100000
      ⟨599, ""⟩ ⟨599, ""⟩).1 (by decide) (by decide), ?_, ?_⟩
  · exact ((getLatestBlockhash_cache_spec ⟨"", 0⟩ 100000 102000
      ⟨200, "freshHash"⟩ ⟨599, ""⟩).2.2 rfl (by decide) (by decide) (by decide)).1
  · exact ((getLatestBlockhash_cache_spec ⟨"", 0⟩ 100000 102000
      ⟨200, "freshHash"⟩ ⟨599, ""⟩).2.2 rfl (by decide) (by decide) (by decide)).2

/-- Claim C8: for a POST /relay with `requireCreator` set, an absent
`CREATOR_PUBKEY` terminates with 412, and — with a creator configured — a
missing or unequal declared signer (compared after whitespace trimming, as the
code does) terminates with 403; in both cases the request never reaches the
sendRawTransaction submit path. -/
theorem relayGate_creator_spec (env : Env) (body : RelayReq)
    (htx : body.tx ≠ "") (hreq : body.requireCreator = true) :
    (env.CREATOR_PUBKEY = none →
      relayGate env body = .reject 412 "CREATOR_PUBKEY not configured"
      ∧ relayGate env body ≠ .submitted)
    ∧ (jsTrim (env.CREATOR_PUBKEY.getD "") ≠ "" →
        (jsTrim (body.signer.getD "") = ""
          ∨ jsTrim (body.signer.getD "") ≠ jsTrim (env.CREATOR_PUBKEY.getD "")) →
        relayGate env body = .reject 403 "Forbidden: signer is not creator"
        ∧ relayGate env body ≠ .submitted) := by
  constructor
  · intro habs
    have h412 : relayGate env body = .reject 412 "CREATOR_PUBKEY not configured" := by
      have : jsTrim (env.CREATOR_PUBKEY.getD "") = "" := by
        rw [habs]; rfl
      simp [relayGate, htx, hreq, this]
    exact ⟨h412, by rw [h412]; intro hco; exact RelayOutcome.noConfusion hco⟩
  · intro hneed hbad
    have h403 : relayGate env body = .reject 403 "Forbidden: signer is not creator" := by
      rcases hbad with hb | hb <;> simp [relayGate, htx, hreq, hneed, hb]
    exact ⟨h403, by rw [h403]; intro hco; exact RelayOutcome.noConfusion hco⟩

/-- Claim C8 witness: with no creator configured the gate answers 412, and
with a configured creator a wrong declared signer is answered 403. -/
theorem relayGate_creator_spec_witness :
    relayGate envNoRemote ⟨"dHhieXRlcw==", true, some "SomeSigner"⟩
      = .reject 412 "CREATOR_PUBKEY not configured"
    ∧ relayGate envCreator ⟨"dHhieXRlcw==", true, some "WRONGKEY"⟩
      = .reject 403 "Forbidden: signer is not creator" := by
  exact ⟨((relayGate_creator_spec envNoRemote ⟨"dHhieXRlcw==", true, some "SomeSigner"⟩
      (by decide) rfl).1 rfl).1,
    ((relayGate_creator_spec envCreator ⟨"dHhieXRlcw==", true, some "WRONGKEY"⟩
      (by decide) rfl).2 (by decide) (Or.inr (by decide))).1⟩

/-- Claim C9: with `REMOTE_CLAIMS_URL` configured and the remote fetch
succeeding with a bare array body — or an object carrying a `claimed` array —
`getClaims` returns exactly the remote list and never reads the local KV
store; consequently `addClaim` decides against the remote list only, and an
index present only in the local KV store is granted again. -/
theorem getClaims_remote_authoritative (env : Env) (kv : KvVal) (l : List Int)
    (i : Int) (hr : env.REMOTE_CLAIMS_URL.isSome = true) :
    getClaims env (.httpResp true (some (.jarr l))) kv = ⟨l, false⟩
    ∧ getClaims env (.httpResp true (some (.jobjClaimed l))) kv = ⟨l, false⟩
    ∧ (i ∉ l → i ∈ readKvList kv →
        (addClaim env (.httpResp true (some (.jarr l))) kv i).result = .created) := by
  refine ⟨by simp [getClaims, hr], by simp [getClaims, hr], fun hnl _ => ?_⟩
  have hg : (getClaims env (.httpResp true (some (.jarr l))) kv).claimed = l := by
    simp [getClaims, hr]
  simp [addClaim, hg, hnl]

/-- Claim C9 witness: the remote empty list is returned without a KV read, and
index 5 — recorded only in the KV store — is granted a second time. -/
theorem getClaims_remote_authoritative_witness :
    getClaims envRemote remoteEmptyOk (.val (.jarr [5])) = ⟨[], false⟩
    ∧ (addClaim envRemote remoteEmptyOk (.val (.jarr [5])) 5).result = .created := by
  have h := getClaims_remote_authoritative envRemote (.val (.jarr [5])) [] 5 rfl
  exact ⟨h.1, h.2.2 (by decide) (by decide)⟩

/-- Claim C10: every enumerated backing-store failure — remote transport
failure, remote non-OK status, remote body that is no usable list, missing KV
key, unparsable KV value, KV value of an unexpected shape — leaves `getClaims`
with a list (falling back to the KV read and ultimately to the empty array),
and GET /claims answers status 200 with a JSON array for every store state,
also when every backing store fails at once. -/
theorem getClaims_total_fallback (env : Env) (kv : KvVal) (remote : RemoteOutcome)
    (b : Option Js) :
    (getClaims env .transportFail kv).claimed = readKvList kv
    ∧ (getClaims env (.httpResp false b) kv).claimed = readKvList kv
    ∧ (getClaims env (.httpResp true none) kv).claimed = readKvList kv
    ∧ (getClaims env (.httpResp true (some .jother)) kv).claimed = readKvList kv
    ∧ readKvList .missing = []
    ∧ readKvList .unparsable = []
    ∧ readKvList (.val .jother) = []
    ∧ (getClaimsHandler env remote kv).status = 200
    ∧ getClaimsHandler env .transportFail .unparsable = ⟨200, .claimedList []⟩ := by
  have hkv : ∀ r : RemoteOutcome, (getClaims env .transportFail kv).claimed
      = readKvList kv := by
    intro r
    by_cases h : env.REMOTE_CLAIMS_URL.isSome <;> simp [getClaims, h]
  refine ⟨?_, ?_, ?_, ?_, rfl, rfl, rfl, rfl, ?_⟩
  · by_cases h : env.REMOTE_CLAIMS_URL.isSome <;> simp [getClaims, h]
  · by_cases h : env.REMOTE_CLAIMS_URL.isSome <;> simp [getClaims, h]
  · by_cases h : env.REMOTE_CLAIMS_URL.isSome <;> simp [getClaims, h]
  · by_cases h : env.REMOTE_CLAIMS_URL.isSome <;> simp [getClaims, h]
  · by_cases h : env.REMOTE_CLAIMS_URL.isSome <;>
      simp [getClaimsHandler, getClaims, h, readKvList]

end InpinityRpcProxy
